import Mathlib

/-!
Verification of the school management system: the domain model
(school_system_backend.py) and the data-access layer (database_manager.py).

Python dynamic values that reach the validated `age` argument are modelled
by `PyVal`; Python exceptions raised by the domain model by `PyError`
(the constructor raises `ValueError` with a fixed message; the spec's error
taxonomy calls this kind `ValidationError`).  Fallible operations return
`Except`.
-/

/-- A Python value passed as the `age` argument of a constructor: either an
`int` or some non-`int` value (a string, `None`, ...).  `isinstance(age, int)`
holds exactly for `vint`. -/
inductive PyVal where
  | vint (n : Int)
  | vstr (s : String)
  | vnone
  deriving Repr, DecidableEq

/-- Result of Python's `isinstance(age, int)` on a `PyVal`. -/
def isInstanceInt : PyVal → Bool
  | .vint _ => true
  | _ => false

/-- Result of Python's `age < 0`.  In the source this comparison is only
reached (by `or` short-circuit) when `age` is an `int`, so the value on
non-`int` arguments is never observed. -/
def PyVal.ltZero : PyVal → Bool
  | .vint n => decide (n < 0)
  | _ => false

/-- Result of Python's membership test for a single-character needle,
as in the source's checks on the email string: true when some character of
the string equals the needle. -/
def pyCharIn (c : Char) (s : String) : Bool :=
  s.data.contains c

/-- An exception raised by the domain model.  `Person.__init__` raises
Python's built-in `ValueError` with a message; the spec's taxonomy names this
kind `ValidationError`. -/
inductive PyError where
  | valueError (msg : String)
  deriving Repr, DecidableEq

/-- The `Person` object of school_system_backend.py: fields `name`, `age`
and `_email` as set by the constructor. -/
structure Person where
  name : String
  age : PyVal
  email : String
  deriving Repr, DecidableEq

/-- The constructor `Person.__init__` (school_system_backend.py lines 12-22):
it stores the fields, then checks `not isinstance(age, int) or age < 0`
(raising `ValueError("Age must be a non-negative integer.")`), then checks
`'@' not in email or '.' not in email` (raising
`ValueError("Email address is not valid.")`).  A raise means no object is
produced, so the model returns `Except`. -/
def Person.init (name : String) (age : PyVal) (email : String) :
    Except PyError Person :=
  if !isInstanceInt age || age.ltZero then
    .error (.valueError "Age must be a non-negative integer.")
  else if !(pyCharIn '@' email) || !(pyCharIn '.' email) then
    .error (.valueError "Email address is not valid.")
  else
    .ok ⟨name, age, email⟩

/-- The `Student` object: `Person` fields plus `student_id` and the
in-memory `registered_courses` list.  In Python that list holds `Course`
object references; the only data of those references the class ever reads
is `course_id` (in `to_dict`), so the model carries the course identifiers. -/
structure Student where
  name : String
  age : PyVal
  email : String
  student_id : String
  registered_courses : List String
  deriving Repr, DecidableEq

/-- The constructor `Student.__init__`: calls `super().__init__` (the
`Person` constructor, which may raise) and initializes
`registered_courses` to the empty list. -/
def Student.init (name : String) (age : PyVal) (email : String)
    (student_id : String) : Except PyError Student :=
  match Person.init name age email with
  | .error e => .error e
  | .ok p => .ok ⟨p.name, p.age, p.email, student_id, []⟩

/-- The dictionary produced by `Student.to_dict` and consumed by
`Student.from_dict`. -/
structure StudentDict where
  name : String
  age : PyVal
  email : String
  student_id : String
  registered_courses : List String
  deriving Repr, DecidableEq

/-- Export `Student.to_dict` (school_system_backend.py lines 70-82):
all scalar fields plus the list of the registered courses' identifiers. -/
def Student.to_dict (s : Student) : StudentDict :=
  ⟨s.name, s.age, s.email, s.student_id, s.registered_courses⟩

/-- Reconstruction `Student.from_dict` (lines 84-93): calls the constructor
with the scalar entries only; the dictionary's `registered_courses` entry is
ignored. -/
def Student.from_dict (d : StudentDict) : Except PyError Student :=
  Student.init d.name d.age d.email d.student_id

/-- The `Instructor` object: `Person` fields plus `instructor_id` and the
in-memory `assigned_courses` list (course identifiers, as for `Student`). -/
structure Instructor where
  name : String
  age : PyVal
  email : String
  instructor_id : String
  assigned_courses : List String
  deriving Repr, DecidableEq

/-- The constructor `Instructor.__init__`: calls the `Person` constructor and
initializes `assigned_courses` to the empty list. -/
def Instructor.init (name : String) (age : PyVal) (email : String)
    (instructor_id : String) : Except PyError Instructor :=
  match Person.init name age email with
  | .error e => .error e
  | .ok p => .ok ⟨p.name, p.age, p.email, instructor_id, []⟩

/-- The dictionary produced by `Instructor.to_dict` and consumed by
`Instructor.from_dict`. -/
structure InstructorDict where
  name : String
  age : PyVal
  email : String
  instructor_id : String
  assigned_courses : List String
  deriving Repr, DecidableEq

/-- Export `Instructor.to_dict` (lines 133-145). -/
def Instructor.to_dict (i : Instructor) : InstructorDict :=
  ⟨i.name, i.age, i.email, i.instructor_id, i.assigned_courses⟩

/-- Reconstruction `Instructor.from_dict` (lines 147-156): scalar entries
only; the `assigned_courses` entry is ignored. -/
def Instructor.from_dict (d : InstructorDict) : Except PyError Instructor :=
  Instructor.init d.name d.age d.email d.instructor_id

/-- The `Course` object (lines 159-177): no validation on construction;
`instructor` is an optional `Instructor` reference; `enrolled_students`
holds student references (identifiers in the model, as above). -/
structure Course where
  course_id : String
  course_name : String
  instructor : Option Instructor
  enrolled_students : List String
  deriving Repr, DecidableEq

/-- The constructor `Course.__init__`: total, initializes
`enrolled_students` to the empty list. -/
def Course.init (course_id : String) (course_name : String)
    (instructor : Option Instructor) : Course :=
  ⟨course_id, course_name, instructor, []⟩

/-!
Data-access layer (database_manager.py).  The persisted state is the four
relations of the schema; each manager method is a pure state transformer.
The storage engine's constraint checks come from the schema file
database_schema.sql, which is not part of src/ — they are modelled from the
spec (see the `Modelled from the spec:` definitions below).  The code
surfaces a fired constraint as an integrity error; following the spec's
taxonomy, the error is named by which constraint fired. -/

/-- A row of the students relation:
students(student_id PRIMARY KEY, name, age, email). -/
structure StudentRow where
  student_id : String
  name : String
  age : PyVal
  email : String
  deriving Repr, DecidableEq

/-- A row of the instructors relation:
instructors(instructor_id PRIMARY KEY, name, age, email). -/
structure InstructorRow where
  instructor_id : String
  name : String
  age : PyVal
  email : String
  deriving Repr, DecidableEq

/-- A row of the courses relation:
courses(course_id PRIMARY KEY, course_name, instructor_id NULLABLE). -/
structure CourseRow where
  course_id : String
  course_name : String
  instructor_id : Option String
  deriving Repr, DecidableEq

/-- A row of the registrations relation: registrations(student_id, course_id). -/
structure RegRow where
  student_id : String
  course_id : String
  deriving Repr, DecidableEq

/-- The database state: the four relations, each a list of rows in
insertion order. -/
structure DBState where
  students : List StudentRow
  instructors : List InstructorRow
  courses : List CourseRow
  registrations : List RegRow
  deriving Repr, DecidableEq

/-- A storage-engine integrity violation surfaced by the manager (in Python,
sqlite3.IntegrityError caught and re-raised unchanged); the spec's taxonomy
names it by the constraint that fired. -/
inductive DBError where
  | duplicateKeyError
  | duplicateRegistrationError
  | referentialIntegrityError
  deriving Repr, DecidableEq

/-- Modelled from the spec: database_schema.sql is absent from src/, so the
primary-key constraint of students(student_id) is taken from the spec's
schema layout.  Holds when an insert with this key would collide. -/
def studentKeyTaken (db : DBState) (sid : String) : Bool :=
  db.students.any (fun r => r.student_id == sid)

/-- Modelled from the spec: primary-key constraint of
instructors(instructor_id), from the spec's schema layout
(database_schema.sql is absent from src/). -/
def instructorKeyTaken (db : DBState) (iid : String) : Bool :=
  db.instructors.any (fun r => r.instructor_id == iid)

/-- Modelled from the spec: primary-key constraint of courses(course_id),
from the spec's schema layout (database_schema.sql is absent from src/). -/
def courseKeyTaken (db : DBState) (cid : String) : Bool :=
  db.courses.any (fun r => r.course_id == cid)

/-- Modelled from the spec: the UNIQUE(student_id, course_id) constraint of
the registrations relation, from the spec's schema layout
(database_schema.sql is absent from src/). -/
def regPairTaken (db : DBState) (sid cid : String) : Bool :=
  db.registrations.any (fun r => r.student_id == sid && r.course_id == cid)

/-- Modelled from the spec: foreign-key enforcement — a student row is
referenced when some registration row carries its key, which blocks its
deletion (database_schema.sql is absent from src/). -/
def studentReferenced (db : DBState) (sid : String) : Bool :=
  db.registrations.any (fun r => r.student_id == sid)

/-- Modelled from the spec: foreign-key target check — the student key
exists in the students relation (database_schema.sql is absent from src/). -/
def studentExists (db : DBState) (sid : String) : Bool :=
  db.students.any (fun r => r.student_id == sid)

/-- Modelled from the spec: foreign-key target check — the course key exists
in the courses relation (database_schema.sql is absent from src/). -/
def courseExists (db : DBState) (cid : String) : Bool :=
  db.courses.any (fun r => r.course_id == cid)

/-- Modelled from the spec: foreign-key target check — the instructor key
exists in the instructors relation (database_schema.sql is absent from
src/). -/
def instructorExists (db : DBState) (iid : String) : Bool :=
  db.instructors.any (fun r => r.instructor_id == iid)

/-- The INSERT of `add_student` (database_manager.py lines 38-54): appends
the row; the primary-key constraint makes a duplicate key fail. -/
def addStudent (db : DBState) (s : Student) : Except DBError DBState :=
  if studentKeyTaken db s.student_id then
    .error .duplicateKeyError
  else
    .ok { db with students := db.students ++ [⟨s.student_id, s.name, s.age, s.email⟩] }

/-- The SELECT of `get_all_students` (lines 56-63): all rows in
storage-native order. -/
def getAllStudents (db : DBState) : List StudentRow :=
  db.students

/-- The SELECT of `get_student_by_id` (lines 65-74): first matching row or
none (`fetchone`). -/
def getStudentById (db : DBState) (sid : String) : Option StudentRow :=
  db.students.find? (fun r => r.student_id == sid)

/-- The UPDATE of `update_student` (lines 76-88): overwrites name, age and
email of every row whose key matches; total, no error on zero matches. -/
def updateStudent (db : DBState) (s : Student) : DBState :=
  { db with students := db.students.map (fun r =>
      if r.student_id == s.student_id then
        { r with name := s.name, age := s.age, email := s.email }
      else r) }

/-- The DELETE of `delete_student` (lines 90-99): removes matching rows;
the foreign-key constraint blocks it while a registration references the
student. -/
def deleteStudent (db : DBState) (sid : String) : Except DBError DBState :=
  if studentReferenced db sid then
    .error .referentialIntegrityError
  else
    .ok { db with students := db.students.filter (fun r => r.student_id != sid) }

/-- The INSERT of `add_instructor` (lines 102-118). -/
def addInstructor (db : DBState) (i : Instructor) : Except DBError DBState :=
  if instructorKeyTaken db i.instructor_id then
    .error .duplicateKeyError
  else
    .ok { db with instructors := db.instructors ++ [⟨i.instructor_id, i.name, i.age, i.email⟩] }

/-- The SELECT of `get_instructor_by_id` (lines 129-138). -/
def getInstructorById (db : DBState) (iid : String) : Option InstructorRow :=
  db.instructors.find? (fun r => r.instructor_id == iid)

/-- The INSERT of `add_course` (lines 166-184): stores
`course.instructor.instructor_id` when an instructor is set, null otherwise;
the primary-key and (spec-modelled) foreign-key constraints apply. -/
def addCourse (db : DBState) (c : Course) : Except DBError DBState :=
  let iid := c.instructor.map (fun i => i.instructor_id)
  if courseKeyTaken db c.course_id then
    .error .duplicateKeyError
  else
    match iid with
    | none =>
        .ok { db with courses := db.courses ++ [⟨c.course_id, c.course_name, none⟩] }
    | some i =>
        if instructorExists db i then
          .ok { db with courses := db.courses ++ [⟨c.course_id, c.course_name, some i⟩] }
        else
          .error .referentialIntegrityError

/-- The SELECT of `get_course_by_id` (lines 195-204). -/
def getCourseById (db : DBState) (cid : String) : Option CourseRow :=
  db.courses.find? (fun r => r.course_id == cid)

/-- The INSERT of `register_student_in_course` (lines 233-251): the unique
pair constraint rejects a duplicate; the (spec-modelled) foreign keys reject
unknown student or course identifiers. -/
def registerStudentInCourse (db : DBState) (sid cid : String) :
    Except DBError DBState :=
  if regPairTaken db sid cid then
    .error .duplicateRegistrationError
  else if !(studentExists db sid) || !(courseExists db cid) then
    .error .referentialIntegrityError
  else
    .ok { db with registrations := db.registrations ++ [⟨sid, cid⟩] }

/-- Number of registration rows carrying a given (student_id, course_id)
pair. -/
def regPairCount (db : DBState) (sid cid : String) : Nat :=
  db.registrations.countP (fun r => r.student_id == sid && r.course_id == cid)

/-- An output row of `get_registrations_for_display`:
(s.student_id, s.name, c.course_id, c.course_name). -/
structure DisplayRow where
  student_id : String
  student_name : String
  course_id : String
  course_name : String
  deriving Repr, DecidableEq

/-- The join of the display query (lines 253-267), before ORDER BY:
registrations JOIN students ON matching student key JOIN courses ON matching
course key, projected to (student_id, name, course_id, course_name). -/
def displayJoinRows (db : DBState) : List DisplayRow :=
  db.registrations.flatMap (fun r =>
    db.students.flatMap (fun s =>
      db.courses.filterMap (fun c =>
        if r.student_id == s.student_id && r.course_id == c.course_id then
          some ⟨s.student_id, s.name, c.course_id, c.course_name⟩
        else none)))

/-- The comparison of the query's ORDER BY s.name, c.course_name: student
name first, course name breaking ties. -/
def displayLe (a b : DisplayRow) : Bool :=
  decide (a.student_name < b.student_name ∨
    (a.student_name = b.student_name ∧ a.course_name ≤ b.course_name))

/-- The full display query `get_registrations_for_display` (lines 253-267):
the join, ordered by student name and then course name. -/
def getRegistrationsForDisplay (db : DBState) : List DisplayRow :=
  (displayJoinRows db).mergeSort displayLe

/-!
Concrete sample data used by the witness theorems below. -/

/-- Sample stored student row. -/
def wSRow : StudentRow := ⟨"S1", "Ann", .vint 20, "ann@x.com"⟩

/-- Sample stored instructor row. -/
def wIRow : InstructorRow := ⟨"I1", "Bob", .vint 40, "bob@x.com"⟩

/-- Sample stored course row (no instructor). -/
def wCRow : CourseRow := ⟨"C1", "Algebra", none⟩

/-- Sample database: one student, one instructor, one course, one
registration of the student in the course. -/
def wDB : DBState := ⟨[wSRow], [wIRow], [wCRow], [⟨"S1", "C1"⟩]⟩

/-- A fresh student entity colliding with the stored student key. -/
def wStudent2 : Student := ⟨"Eve", .vint 30, "eve@y.eu", "S1", []⟩

/-- A fresh instructor entity colliding with the stored instructor key. -/
def wInstructor2 : Instructor := ⟨"Kim", .vint 50, "kim@y.eu", "I1", []⟩

/-- A fresh course entity colliding with the stored course key. -/
def wCourse2 : Course := ⟨"C1", "Painting", none, []⟩

/-- An update candidate whose identifier matches no stored row. -/
def wStudent9 : Student := ⟨"Zoe", .vint 25, "zoe@y.eu", "S9", []⟩

/-!
Claim theorems: domain model. -/

/-- C4: for every input where the age is negative or not an integer,
constructing a Person fails with the validation error carrying the message
"Age must be a non-negative integer." (in the source a Python ValueError,
the spec's ValidationError kind); for every integer age at least 0, the age
check passes, so the constructor never fails with that message. -/
theorem person_age_invalid_fails (name email : String) (a : PyVal) (n : Int)
    (hbad : isInstanceInt a = false ∨ a.ltZero = true) (hn : 0 ≤ n) :
    Person.init name a email =
      .error (.valueError "Age must be a non-negative integer.") ∧
    Person.init name (.vint n) email ≠
      .error (.valueError "Age must be a non-negative integer.") := by
  constructor
  · have hcond : (!isInstanceInt a || a.ltZero) = true := by
      rcases hbad with h | h
      · simp [h]
      · simp [h]
    simp [Person.init, hcond]
  · have h2 : PyVal.ltZero (.vint n) = false := by
      simp [PyVal.ltZero]
      omega
    by_cases hat : pyCharIn '@' email = true <;>
      by_cases hdot : pyCharIn '.' email = true <;>
        simp [Person.init, isInstanceInt, h2, hat, hdot]

/-- Witness for C4 at a concrete input: age -1 (a negative integer) fails
with the age message, and the age check passes at age 3. -/
theorem person_age_invalid_fails_witness :
    (isInstanceInt (.vint (-1)) = false ∨ (PyVal.ltZero (.vint (-1))) = true) ∧
    (0 : Int) ≤ 3 ∧
    (Person.init "A" (.vint (-1)) "a@b.c" =
      .error (.valueError "Age must be a non-negative integer.") ∧
     Person.init "A" (.vint 3) "a@b.c" ≠
      .error (.valueError "Age must be a non-negative integer.")) :=
  ⟨Or.inr (by decide), by decide,
    person_age_invalid_fails "A" "a@b.c" (.vint (-1)) 3 (Or.inr (by decide))
      (by decide)⟩

/-- C5: with a valid age, construction fails with the message
"Email address is not valid." exactly when the email lacks the character
at-sign or lacks the dot; it succeeds exactly when the email contains both
characters, with no further format checking. -/
theorem person_email_validation (name email : String) (n : Int) (hn : 0 ≤ n) :
    (Person.init name (.vint n) email =
        .error (.valueError "Email address is not valid.") ↔
      (pyCharIn '@' email = false ∨ pyCharIn '.' email = false)) ∧
    ((∃ p, Person.init name (.vint n) email = .ok p) ↔
      (pyCharIn '@' email = true ∧ pyCharIn '.' email = true)) := by
  have h2 : PyVal.ltZero (.vint n) = false := by
    simp [PyVal.ltZero]
    omega
  by_cases hat : pyCharIn '@' email = true <;>
    by_cases hdot : pyCharIn '.' email = true <;>
      simp_all [Person.init, isInstanceInt]

/-- Witness for C5 at concrete inputs: with valid age 0 the iff pair holds
for the email "abc" (no at-sign, no dot). -/
theorem person_email_validation_witness :
    (0 : Int) ≤ 0 ∧
    ((Person.init "A" (.vint 0) "abc" =
        .error (.valueError "Email address is not valid.") ↔
      (pyCharIn '@' "abc" = false ∨ pyCharIn '.' "abc" = false)) ∧
    ((∃ p, Person.init "A" (.vint 0) "abc" = .ok p) ↔
      (pyCharIn '@' "abc" = true ∧ pyCharIn '.' "abc" = true))) :=
  ⟨by decide, person_email_validation "A" "abc" 0 (by decide)⟩

/-- C9: the age check runs before the email check: when both the age and
the email are invalid, construction fails with the age message, not the
email message. -/
theorem person_age_check_precedes_email (name email : String) (a : PyVal)
    (hbad : isInstanceInt a = false ∨ a.ltZero = true)
    (_he : pyCharIn '@' email = false ∨ pyCharIn '.' email = false) :
    Person.init name a email =
      .error (.valueError "Age must be a non-negative integer.") := by
  have hcond : (!isInstanceInt a || a.ltZero) = true := by
    rcases hbad with h | h
    · simp [h]
    · simp [h]
  simp [Person.init, hcond]

/-- Witness for C9 at a concrete input: age None and email "abc" (both
invalid) fail with the age message. -/
theorem person_age_check_precedes_email_witness :
    (isInstanceInt .vnone = false ∨ (PyVal.ltZero .vnone) = true) ∧
    (pyCharIn '@' "abc" = false ∨ pyCharIn '.' "abc" = false) ∧
    Person.init "A" .vnone "abc" =
      .error (.valueError "Age must be a non-negative integer.") :=
  ⟨Or.inl (by decide), Or.inl (by decide),
    person_age_check_precedes_email "A" "abc" .vnone (Or.inl (by decide))
      (Or.inl (by decide))⟩

/-- C6: for every valid input (any name, integer age at least 0, email
containing both the at-sign and the dot, any identifier), constructing a
Student or Instructor succeeds, and exporting with to_dict then
reconstructing with from_dict yields an object equal to the original in all
logical fields (name, age, email, identifier). -/
theorem student_instructor_roundtrip (name email sid iid : String) (n : Int)
    (hn : 0 ≤ n) (hat : pyCharIn '@' email = true)
    (hdot : pyCharIn '.' email = true) :
    (∃ s : Student, Student.init name (.vint n) email sid = .ok s ∧
      Student.from_dict s.to_dict = .ok s ∧
      s.name = name ∧ s.age = .vint n ∧ s.email = email ∧
      s.student_id = sid) ∧
    (∃ i : Instructor, Instructor.init name (.vint n) email iid = .ok i ∧
      Instructor.from_dict i.to_dict = .ok i ∧
      i.name = name ∧ i.age = .vint n ∧ i.email = email ∧
      i.instructor_id = iid) := by
  have h2 : PyVal.ltZero (.vint n) = false := by
    simp [PyVal.ltZero]
    omega
  have hinit : Person.init name (.vint n) email = .ok ⟨name, .vint n, email⟩ := by
    simp [Person.init, isInstanceInt, h2, hat, hdot]
  constructor
  · refine ⟨⟨name, .vint n, email, sid, []⟩, ?_, ?_, rfl, rfl, rfl, rfl⟩
    · simp [Student.init, hinit]
    · simp [Student.from_dict, Student.to_dict, Student.init, hinit]
  · refine ⟨⟨name, .vint n, email, iid, []⟩, ?_, ?_, rfl, rfl, rfl, rfl⟩
    · simp [Instructor.init, hinit]
    · simp [Instructor.from_dict, Instructor.to_dict, Instructor.init, hinit]

/-- Witness for C6 at a concrete valid input: name "Ann", age 20, email
"ann@x.com", identifiers "S1" and "I1". -/
theorem student_instructor_roundtrip_witness :
    (0 : Int) ≤ 20 ∧ pyCharIn '@' "ann@x.com" = true ∧
    pyCharIn '.' "ann@x.com" = true ∧
    ((∃ s : Student, Student.init "Ann" (.vint 20) "ann@x.com" "S1" = .ok s ∧
      Student.from_dict s.to_dict = .ok s ∧
      s.name = "Ann" ∧ s.age = .vint 20 ∧ s.email = "ann@x.com" ∧
      s.student_id = "S1") ∧
    (∃ i : Instructor, Instructor.init "Ann" (.vint 20) "ann@x.com" "I1" = .ok i ∧
      Instructor.from_dict i.to_dict = .ok i ∧
      i.name = "Ann" ∧ i.age = .vint 20 ∧ i.email = "ann@x.com" ∧
      i.instructor_id = "I1")) :=
  ⟨by decide, by decide, by decide,
    student_instructor_roundtrip "Ann" "ann@x.com" "S1" "I1" 20 (by decide)
      (by decide) (by decide)⟩

/-- C10: whenever Student.from_dict or Instructor.from_dict succeeds, the
reconstructed object's registered_courses / assigned_courses list is empty,
regardless of the corresponding entries of the input dictionary:
reconstruction never restores the in-memory relation lists. -/
theorem from_dict_relation_lists_empty (d : StudentDict) (e : InstructorDict)
    (s : Student) (i : Instructor)
    (hs : Student.from_dict d = .ok s)
    (hi : Instructor.from_dict e = .ok i) :
    s.registered_courses = [] ∧ i.assigned_courses = [] := by
  constructor
  · unfold Student.from_dict Student.init at hs
    split at hs
    · cases hs
    · injection hs with h
      subst h
      rfl
  · unfold Instructor.from_dict Instructor.init at hi
    split at hi
    · cases hi
    · injection hi with h
      subst h
      rfl

/-- Witness for C10 at a concrete input: dictionaries carrying non-empty
relation lists still reconstruct to objects with empty lists. -/
theorem from_dict_relation_lists_empty_witness :
    Student.from_dict ⟨"Ann", .vint 20, "ann@x.com", "S1", ["C1", "C2"]⟩ =
      .ok ⟨"Ann", .vint 20, "ann@x.com", "S1", []⟩ ∧
    Instructor.from_dict ⟨"Bob", .vint 40, "bob@x.com", "I1", ["C1"]⟩ =
      .ok ⟨"Bob", .vint 40, "bob@x.com", "I1", []⟩ ∧
    (Student.mk "Ann" (.vint 20) "ann@x.com" "S1" []).registered_courses = [] ∧
    (Instructor.mk "Bob" (.vint 40) "bob@x.com" "I1" []).assigned_courses = [] :=
  ⟨by rfl, by rfl,
    from_dict_relation_lists_empty
      ⟨"Ann", .vint 20, "ann@x.com", "S1", ["C1", "C2"]⟩
      ⟨"Bob", .vint 40, "bob@x.com", "I1", ["C1"]⟩
      ⟨"Ann", .vint 20, "ann@x.com", "S1", []⟩
      ⟨"Bob", .vint 40, "bob@x.com", "I1", []⟩
      (by rfl) (by rfl)⟩

/-!
Claim theorems: data-access layer. -/

/-- C1: deleting a student that has at least one row in the registrations
relation fails with the referential-integrity error, and the student row is
still retrievable by get_student_by_id afterward (the failed call leaves the
state untouched); the delete never silently cascades. -/
theorem delete_student_blocked (db : DBState) (sid : String) (row : StudentRow)
    (hreg : ∃ r ∈ db.registrations, r.student_id = sid)
    (hrow : getStudentById db sid = some row) :
    deleteStudent db sid = .error .referentialIntegrityError ∧
    getStudentById db sid = some row := by
  have h1 : studentReferenced db sid = true := by
    rcases hreg with ⟨r, hr, he⟩
    simp [studentReferenced]
    exact ⟨r, hr, he⟩
  exact ⟨by simp [deleteStudent, h1], hrow⟩

/-- Witness for C1 on the sample database: student "S1" is registered in
course "C1", so its deletion is rejected and the row survives. -/
theorem delete_student_blocked_witness :
    (∃ r ∈ wDB.registrations, r.student_id = "S1") ∧
    (deleteStudent wDB "S1" = .error .referentialIntegrityError ∧
     getStudentById wDB "S1" = some wSRow) :=
  have h : ∃ r ∈ wDB.registrations, r.student_id = "S1" :=
    ⟨⟨"S1", "C1"⟩, by simp [wDB], rfl⟩
  ⟨h, delete_student_blocked wDB "S1" wSRow h rfl⟩

/-- C2: for every entity already stored under a primary key (student,
instructor or course), a second add of any entity with the same key fails
with the duplicate-key error, and the first row remains retrievable by
get_by_id afterward (the failed call leaves the state untouched).  The three
entity types are independent implications, each applicable on its own. -/
theorem add_duplicate_key_fails (db : DBState) (s : Student) (i : Instructor)
    (c : Course) (rs : StudentRow) (ri : InstructorRow) (rc : CourseRow) :
    (getStudentById db s.student_id = some rs →
      addStudent db s = .error .duplicateKeyError ∧
      getStudentById db s.student_id = some rs) ∧
    (getInstructorById db i.instructor_id = some ri →
      addInstructor db i = .error .duplicateKeyError ∧
      getInstructorById db i.instructor_id = some ri) ∧
    (getCourseById db c.course_id = some rc →
      addCourse db c = .error .duplicateKeyError ∧
      getCourseById db c.course_id = some rc) := by
  refine ⟨fun hs => ?_, fun hi => ?_, fun hc => ?_⟩
  · have h1 : studentKeyTaken db s.student_id = true := by
      have hm := List.mem_of_find?_eq_some hs
      have hp := List.find?_some hs
      simp [studentKeyTaken]
      exact ⟨rs, hm, by simpa using hp⟩
    exact ⟨by simp [addStudent, h1], hs⟩
  · have h2 : instructorKeyTaken db i.instructor_id = true := by
      have hm := List.mem_of_find?_eq_some hi
      have hp := List.find?_some hi
      simp [instructorKeyTaken]
      exact ⟨ri, hm, by simpa using hp⟩
    exact ⟨by simp [addInstructor, h2], hi⟩
  · have h3 : courseKeyTaken db c.course_id = true := by
      have hm := List.mem_of_find?_eq_some hc
      have hp := List.find?_some hc
      simp [courseKeyTaken]
      exact ⟨rc, hm, by simpa using hp⟩
    exact ⟨by simp [addCourse, h3], hc⟩

/-- Witness for C2 on the sample database: fresh entities reusing the stored
keys "S1", "I1" and "C1" are each rejected and the stored rows survive. -/
theorem add_duplicate_key_fails_witness :
    getStudentById wDB wStudent2.student_id = some wSRow ∧
    (addStudent wDB wStudent2 = .error .duplicateKeyError ∧
     getStudentById wDB wStudent2.student_id = some wSRow) ∧
    getInstructorById wDB wInstructor2.instructor_id = some wIRow ∧
    (addInstructor wDB wInstructor2 = .error .duplicateKeyError ∧
     getInstructorById wDB wInstructor2.instructor_id = some wIRow) ∧
    getCourseById wDB wCourse2.course_id = some wCRow ∧
    (addCourse wDB wCourse2 = .error .duplicateKeyError ∧
     getCourseById wDB wCourse2.course_id = some wCRow) :=
  ⟨rfl,
    (add_duplicate_key_fails wDB wStudent2 wInstructor2 wCourse2 wSRow wIRow
      wCRow).1 rfl,
    rfl,
    (add_duplicate_key_fails wDB wStudent2 wInstructor2 wCourse2 wSRow wIRow
      wCRow).2.1 rfl,
    rfl,
    (add_duplicate_key_fails wDB wStudent2 wInstructor2 wCourse2 wSRow wIRow
      wCRow).2.2 rfl⟩

/-- C3: registering a (student_id, course_id) pair that is already present
(exactly once, as a prior successful registration leaves it) fails with the
duplicate-registration error, and exactly one registration row for the pair
exists afterward (the failed call leaves the state untouched). -/
theorem register_duplicate_pair_fails (db : DBState) (sid cid : String)
    (h : regPairCount db sid cid = 1) :
    registerStudentInCourse db sid cid = .error .duplicateRegistrationError ∧
    regPairCount db sid cid = 1 := by
  have hpos : 0 < db.registrations.countP
      (fun r => r.student_id == sid && r.course_id == cid) := by
    unfold regPairCount at h
    omega
  obtain ⟨r, hr, hp⟩ := List.countP_pos_iff.mp hpos
  have ht : regPairTaken db sid cid = true := by
    simp at hp
    simp [regPairTaken]
    exact ⟨r, hr, hp⟩
  exact ⟨by simp [registerStudentInCourse, ht], h⟩

/-- Witness for C3 on the sample database: the pair ("S1", "C1") is stored
once; a second register call fails and the count stays one. -/
theorem register_duplicate_pair_fails_witness :
    regPairCount wDB "S1" "C1" = 1 ∧
    (registerStudentInCourse wDB "S1" "C1" =
        .error .duplicateRegistrationError ∧
     regPairCount wDB "S1" "C1" = 1) :=
  ⟨rfl, register_duplicate_pair_fails wDB "S1" "C1" rfl⟩

/-- C8: updating a student whose identifier matches no stored row raises no
error (the operation is total), affects zero rows (the state is unchanged),
and leaves get_all_students unchanged — a silent no-op. -/
theorem update_student_missing_id_noop (db : DBState) (s : Student)
    (h : getStudentById db s.student_id = none) :
    updateStudent db s = db ∧
    getAllStudents (updateStudent db s) = getAllStudents db := by
  have hall := List.find?_eq_none.mp h
  have hcong : ∀ r ∈ db.students,
      (fun r => if r.student_id == s.student_id then
        { r with name := s.name, age := s.age, email := s.email }
      else r) r = id r := by
    intro r hr
    have hne := hall r hr
    simp only [beq_iff_eq] at hne
    simp [hne]
  have key : updateStudent db s = db := by
    simp only [updateStudent, List.map_congr_left hcong, List.map_id]
  exact ⟨key, by rw [key]⟩

/-- Witness for C8 on the sample database: identifier "S9" was never
inserted; the update leaves the state and the full listing unchanged. -/
theorem update_student_missing_id_noop_witness :
    getStudentById wDB wStudent9.student_id = none ∧
    (updateStudent wDB wStudent9 = wDB ∧
     getAllStudents (updateStudent wDB wStudent9) = getAllStudents wDB) :=
  ⟨rfl, update_student_missing_id_noop wDB wStudent9 rfl⟩

/-- Transitivity of the display ordering (student name, then course name). -/
theorem displayLe_trans (a b c : DisplayRow) (hab : displayLe a b = true)
    (hbc : displayLe b c = true) : displayLe a c = true := by
  simp only [displayLe, decide_eq_true_eq] at hab hbc ⊢
  rcases hab with h | ⟨he, hcn⟩ <;> rcases hbc with h' | ⟨he', hcn'⟩
  · exact Or.inl (lt_trans h h')
  · exact Or.inl (he' ▸ h)
  · exact Or.inl (he ▸ h')
  · exact Or.inr ⟨he.trans he', le_trans hcn hcn'⟩

/-- Totality of the display ordering. -/
theorem displayLe_total (a b : DisplayRow) :
    (displayLe a b || displayLe b a) = true := by
  simp only [Bool.or_eq_true, displayLe, decide_eq_true_eq]
  rcases lt_trichotomy a.student_name b.student_name with h | h | h
  · exact Or.inl (Or.inl h)
  · rcases le_total a.course_name b.course_name with hc | hc
    · exact Or.inl (Or.inr ⟨h, hc⟩)
    · exact Or.inr (Or.inr ⟨h.symm, hc⟩)
  · exact Or.inr (Or.inl h)

/-- C7: for every database state, get_registrations_for_display returns the
join of registrations with students and courses projected to
(student_id, student_name, course_id, course_name), sorted first by student
name and then by course name (every pair of rows in output order satisfies
the display ordering, and the output is a permutation of the join); being a
function of the state, the output is deterministic for a fixed input set. -/
theorem display_query_sorted_join (db : DBState) :
    List.Pairwise (fun a b => displayLe a b = true)
      (getRegistrationsForDisplay db) ∧
    (getRegistrationsForDisplay db).Perm (displayJoinRows db) :=
  ⟨List.sorted_mergeSort displayLe_trans displayLe_total (displayJoinRows db),
    List.mergeSort_perm (displayJoinRows db) displayLe⟩
